import Mathlib

/-!
Verification development for the hms-esp-apc USB HID acquisition core.

The embedding below translates the report decoder (`apc_hid_parse_report`,
`apc_hid_format_status` from the APC HID parser translation unit) and the
transfer coordinator tail behaviour (`get_hid_report`, `read_hid_report` from
`usb_host_manager.c`) into executable Lean definitions.

Modelling conventions:
- C `float` fields are modelled as `ℚ`; every value the decoder stores is an
  exact small integer or an integer divided by 10/100, so the rational model
  agrees with `float` on all values the claims mention.
- `uint8_t` buffer bytes are `Nat` read through `byteAt`, which applies
  `% 256` to encode the `uint8_t` range; reads past the end of the list
  (possible in C only via out-of-bounds indices the claims never exercise)
  default to 0.
- `strncpy`/`strncat`/`snprintf` into the fixed-size destination arrays never
  truncate here: every string the decoder can produce is shorter than the
  smallest destination (16 bytes), and the longest status string
  ("OL CHRG LB OVER RB BOOST TRIM", 29 chars) fits `status_string[64]`.
  They are therefore modelled as plain string assignment/append.
-/

/-- `ups_status_t` from apc_hid_parser.h. -/
structure UpsStatus where
  online : Bool
  discharging : Bool
  charging : Bool
  low_battery : Bool
  overload : Bool
  replace_battery : Bool
  boost : Bool
  trim : Bool
deriving DecidableEq

/-- `ups_metrics_t` from apc_hid_parser.h. -/
structure UpsMetrics where
  battery_charge : ℚ
  battery_voltage : ℚ
  battery_runtime : ℚ
  battery_nominal_voltage : ℚ
  battery_warning_threshold : ℚ
  battery_type : String
  battery_mfr_date : String
  input_voltage : ℚ
  input_voltage_nominal : ℚ
  input_frequency : ℚ
  output_voltage : ℚ
  load_percent : ℚ
  nominal_power : ℚ
  high_voltage_transfer : ℚ
  low_voltage_transfer : ℚ
  input_sensitivity : String
  last_transfer_reason : String
  low_battery_charge_threshold : ℚ
  low_battery_runtime_threshold : ℚ
  shutdown_delay : ℚ
  shutdown_timer : ℚ
  reboot_timer : ℚ
  delay_before_reboot : ℚ
  delay_before_shutdown : ℚ
  firmware_version : String
  driver_name : String
  driver_state : String
  driver_version : String
  beeper_status : String
  self_test_result : String
  power_failure_status : String
  status : UpsStatus
  status_string : String
  last_update_ms : Nat
  valid : Bool
deriving DecidableEq

/-- The snapshot produced by `apc_hid_parser_init`: zeroed struct, `valid = false`,
then the five default strings are written. -/
def initMetrics : UpsMetrics :=
  { battery_charge := 0
    battery_voltage := 0
    battery_runtime := 0
    battery_nominal_voltage := 0
    battery_warning_threshold := 0
    battery_type := "PbAc"
    battery_mfr_date := ""
    input_voltage := 0
    input_voltage_nominal := 0
    input_frequency := 0
    output_voltage := 0
    load_percent := 0
    nominal_power := 0
    high_voltage_transfer := 0
    low_voltage_transfer := 0
    input_sensitivity := ""
    last_transfer_reason := ""
    low_battery_charge_threshold := 0
    low_battery_runtime_threshold := 0
    shutdown_delay := 0
    shutdown_timer := 0
    reboot_timer := 0
    delay_before_reboot := 0
    delay_before_shutdown := 0
    firmware_version := ""
    driver_name := "esp32-usb-hid"
    driver_state := "running"
    driver_version := "1.0.0"
    beeper_status := ""
    self_test_result := ""
    power_failure_status := "OK"
    status := ⟨false, false, false, false, false, false, false, false⟩
    status_string := ""
    last_update_ms := 0
    valid := false }

/-- `apc_hid_format_status`: builds the space-separated status token string,
falling back to "UNKNOWN" when no flag is set.  `strncat` never truncates
(longest result is 29 chars into a 64-byte buffer), so it is string append. -/
def apc_hid_format_status (status : UpsStatus) : String :=
  let buffer : String := ""
  let buffer := if status.online then buffer ++ "OL"
                else if status.discharging then buffer ++ "OB"
                else buffer
  let buffer := if status.charging then
                  (if 0 < buffer.length then buffer ++ " " else buffer) ++ "CHRG"
                else buffer
  let buffer := if status.low_battery then
                  (if 0 < buffer.length then buffer ++ " " else buffer) ++ "LB"
                else buffer
  let buffer := if status.overload then
                  (if 0 < buffer.length then buffer ++ " " else buffer) ++ "OVER"
                else buffer
  let buffer := if status.replace_battery then
                  (if 0 < buffer.length then buffer ++ " " else buffer) ++ "RB"
                else buffer
  let buffer := if status.boost then
                  (if 0 < buffer.length then buffer ++ " " else buffer) ++ "BOOST"
                else buffer
  let buffer := if status.trim then
                  (if 0 < buffer.length then buffer ++ " " else buffer) ++ "TRIM"
                else buffer
  if buffer.length = 0 then "UNKNOWN" else buffer

/-- Read byte `i` of the report payload; `% 256` encodes the `uint8_t` range. -/
def byteAt (data : List Nat) (i : Nat) : Nat := data.getD i 0 % 256

/-- `data[i] | (data[i+1] << 8)`: the little-endian 16-bit read the decoder
uses for two-byte fields. -/
def le16At (data : List Nat) (i : Nat) : Nat :=
  byteAt data i ||| (byteAt data (i + 1) <<< 8)

/-- `%0wd`-style zero padding used by the `snprintf` date formatting. -/
def zeroPad (w n : Nat) : String :=
  let s := Nat.repr n
  String.mk (List.replicate (w - s.length) '0') ++ s

/-! Each `case 0xNN:` label of the decoder switch is one function below;
`parseSwitch` is the dispatcher.  Every case checks its minimum payload
length, writes its fields into `target`, and reports whether it updated
anything. -/

/-- case 0x0C: battery charge and runtime. -/
def decode0C (data : List Nat) (target : UpsMetrics) : Bool × UpsMetrics :=
  if 4 ≤ data.length then
    (true, { target with
      battery_charge := (byteAt data 1 : ℚ)
      battery_runtime := (le16At data 2 : ℚ) })
  else (false, target)

/-- case 0x06: status flags (writes four of the eight bits). -/
def decode06 (data : List Nat) (target : UpsMetrics) : Bool × UpsMetrics :=
  if 4 ≤ data.length then
    let status_byte := byteAt data 3
    let st : UpsStatus :=
      { target.status with
        online := status_byte &&& 0x08 != 0
        discharging := status_byte &&& 0x01 != 0
        charging := status_byte &&& 0x02 != 0
        low_battery := status_byte &&& 0x04 != 0 }
    (true, { target with status := st })
  else (false, target)

/-- case 0x08: battery nominal voltage, 16-bit / 100. -/
def decode08 (data : List Nat) (target : UpsMetrics) : Bool × UpsMetrics :=
  if 3 ≤ data.length then
    (true, { target with battery_nominal_voltage := (le16At data 1 : ℚ) / 100 })
  else (false, target)

/-- case 0x09: battery voltage, 16-bit / 100. -/
def decode09 (data : List Nat) (target : UpsMetrics) : Bool × UpsMetrics :=
  if 3 ≤ data.length then
    (true, { target with battery_voltage := (le16At data 1 : ℚ) / 100 })
  else (false, target)

/-- case 0x0B: battery nominal voltage, 8-bit. -/
def decode0B (data : List Nat) (target : UpsMetrics) : Bool × UpsMetrics :=
  if 2 ≤ data.length then
    (true, { target with battery_nominal_voltage := (byteAt data 1 : ℚ) })
  else (false, target)

/-- case 0x0D: battery voltage, 8-bit / 10. -/
def decode0D (data : List Nat) (target : UpsMetrics) : Bool × UpsMetrics :=
  if 2 ≤ data.length then
    (true, { target with battery_voltage := (byteAt data 1 : ℚ) / 10 })
  else (false, target)

/-- case 0x0E: full charge capacity, logged only, never stored. -/
def decode0E (_data : List Nat) (target : UpsMetrics) : Bool × UpsMetrics :=
  (false, target)

/-- case 0x0F: battery warning threshold. -/
def decode0F (data : List Nat) (target : UpsMetrics) : Bool × UpsMetrics :=
  if 2 ≤ data.length then
    (true, { target with battery_warning_threshold := (byteAt data 1 : ℚ) })
  else (false, target)

/-- case 0x10: beeper status, 3-entry enumeration. -/
def decode10 (data : List Nat) (target : UpsMetrics) : Bool × UpsMetrics :=
  if 2 ≤ data.length then
    if byteAt data 1 < 3 then
      let labels := ["disabled", "enabled", "muted"]
      (true, { target with beeper_status := labels.getD (byteAt data 1) "" })
    else (false, target)
  else (false, target)

/-- case 0x11: battery low charge threshold. -/
def decode11 (data : List Nat) (target : UpsMetrics) : Bool × UpsMetrics :=
  if 2 ≤ data.length then
    (true, { target with low_battery_charge_threshold := (byteAt data 1 : ℚ) })
  else (false, target)

/-- case 0x12: low battery runtime threshold. -/
def decode12 (data : List Nat) (target : UpsMetrics) : Bool × UpsMetrics :=
  if 3 ≤ data.length then
    (true, { target with low_battery_runtime_threshold := (le16At data 1 : ℚ) })
  else (false, target)

/-- case 0x15: shutdown timer, signed 16-bit. -/
def decode15 (data : List Nat) (target : UpsMetrics) : Bool × UpsMetrics :=
  if 3 ≤ data.length then
    let v := le16At data 1
    (true, { target with
      shutdown_timer := ((if v < 32768 then (v : ℤ) else (v : ℤ) - 65536 : ℤ) : ℚ) })
  else (false, target)

/-- case 0x16: present status bits (writes all eight). -/
def decode16 (data : List Nat) (target : UpsMetrics) : Bool × UpsMetrics :=
  if 2 ≤ data.length then
    let present_status := byteAt data 1
    let st : UpsStatus :=
      { online := present_status &&& 0x01 != 0
        discharging := present_status &&& 0x02 != 0
        charging := present_status &&& 0x04 != 0
        low_battery := present_status &&& 0x08 != 0
        overload := present_status &&& 0x10 != 0
        replace_battery := present_status &&& 0x20 != 0
        boost := present_status &&& 0x40 != 0
        trim := present_status &&& 0x80 != 0 }
    (true, { target with status := st })
  else (false, target)

/-- case 0x17: reboot timer. -/
def decode17 (data : List Nat) (target : UpsMetrics) : Bool × UpsMetrics :=
  if 3 ≤ data.length then
    (true, { target with reboot_timer := (le16At data 1 : ℚ) })
  else (false, target)

/-- case 0x18: self-test result, 7-entry enumeration. -/
def decode18 (data : List Nat) (target : UpsMetrics) : Bool × UpsMetrics :=
  if 2 ≤ data.length then
    if byteAt data 1 < 7 then
      let labels := ["No test initiated", "Test passed", "Test in progress",
        "General test failed", "Battery failed", "Deep battery test failed",
        "Test aborted"]
      (true, { target with self_test_result := labels.getD (byteAt data 1) "" })
    else (false, target)
  else (false, target)

/-- case 0x1C: battery manufacture date, year/month/day. -/
def decode1C (data : List Nat) (target : UpsMetrics) : Bool × UpsMetrics :=
  if 4 ≤ data.length then
    let year := le16At data 1
    let month := if 3 < data.length then byteAt data 3 else 1
    let day := if 4 < data.length then byteAt data 4 else 1
    let date := zeroPad 4 year ++ "/" ++ zeroPad 2 month ++ "/" ++ zeroPad 2 day
    (true, { target with battery_mfr_date := date })
  else (false, target)

/-- case 0x20: battery manufacture date, day count. -/
def decode20 (data : List Nat) (target : UpsMetrics) : Bool × UpsMetrics :=
  if 3 ≤ data.length then
    (true, { target with battery_mfr_date := Nat.repr (le16At data 1) ++ " days" })
  else (false, target)

/-- case 0x13: delay before reboot. -/
def decode13 (data : List Nat) (target : UpsMetrics) : Bool × UpsMetrics :=
  if 2 ≤ data.length then
    (true, { target with delay_before_reboot := (byteAt data 1 : ℚ) })
  else (false, target)

/-- case 0x14: delay before shutdown. -/
def decode14 (data : List Nat) (target : UpsMetrics) : Bool × UpsMetrics :=
  if 2 ≤ data.length then
    (true, { target with delay_before_shutdown := (byteAt data 1 : ℚ) })
  else (false, target)

/-- case 0x24: battery runtime low threshold. -/
def decode24 (data : List Nat) (target : UpsMetrics) : Bool × UpsMetrics :=
  if 3 ≤ data.length then
    (true, { target with low_battery_runtime_threshold := (le16At data 1 : ℚ) })
  else (false, target)

/-- case 0x21: last transfer reason, 11-entry enumeration. -/
def decode21 (data : List Nat) (target : UpsMetrics) : Bool × UpsMetrics :=
  if 2 ≤ data.length then
    if byteAt data 1 < 11 then
      let reasons := ["No transfer", "High line voltage", "Brownout", "Blackout",
        "Small momentary sag", "Deep momentary sag", "Small momentary spike",
        "Large momentary spike", "Self test", "Input frequency out of range",
        "Input voltage out of range"]
      (true, { target with last_transfer_reason := reasons.getD (byteAt data 1) "" })
    else (false, target)
  else (false, target)

/-- case 0x25: nominal power. -/
def decode25 (data : List Nat) (target : UpsMetrics) : Bool × UpsMetrics :=
  if 3 ≤ data.length then
    (true, { target with nominal_power := (le16At data 1 : ℚ) })
  else (false, target)

/-- case 0x30: input nominal voltage. -/
def decode30 (data : List Nat) (target : UpsMetrics) : Bool × UpsMetrics :=
  if 2 ≤ data.length then
    (true, { target with input_voltage_nominal := (byteAt data 1 : ℚ) })
  else (false, target)

/-- case 0x31: input voltage, 16-bit. -/
def decode31 (data : List Nat) (target : UpsMetrics) : Bool × UpsMetrics :=
  if 3 ≤ data.length then
    (true, { target with input_voltage := (le16At data 1 : ℚ) })
  else (false, target)

/-- case 0x32: low voltage transfer point. -/
def decode32 (data : List Nat) (target : UpsMetrics) : Bool × UpsMetrics :=
  if 3 ≤ data.length then
    (true, { target with low_voltage_transfer := (le16At data 1 : ℚ) })
  else (false, target)

/-- case 0x33: high voltage transfer point. -/
def decode33 (data : List Nat) (target : UpsMetrics) : Bool × UpsMetrics :=
  if 3 ≤ data.length then
    (true, { target with high_voltage_transfer := (le16At data 1 : ℚ) })
  else (false, target)

/-- case 0x50: load percentage. -/
def decode50 (data : List Nat) (target : UpsMetrics) : Bool × UpsMetrics :=
  if 2 ≤ data.length then
    (true, { target with load_percent := (byteAt data 1 : ℚ) })
  else (false, target)

/-- case 0x35: input sensitivity, 3-entry enumeration. -/
def decode35 (data : List Nat) (target : UpsMetrics) : Bool × UpsMetrics :=
  if 2 ≤ data.length then
    if byteAt data 1 < 3 then
      let labels := ["low", "medium", "high"]
      (true, { target with input_sensitivity := labels.getD (byteAt data 1) "" })
    else (false, target)
  else (false, target)

/-- case 0x36: input frequency; zero is a "not available" sentinel. -/
def decode36 (data : List Nat) (target : UpsMetrics) : Bool × UpsMetrics :=
  if 2 ≤ data.length then
    if 0 < byteAt data 1 then
      (true, { target with input_frequency := (byteAt data 1 : ℚ) })
    else (false, target)
  else (false, target)

/-- case 0x03: battery chemistry, 5-entry enumeration. -/
def decode03 (data : List Nat) (target : UpsMetrics) : Bool × UpsMetrics :=
  if 2 ≤ data.length then
    if byteAt data 1 < 5 then
      let labels := ["Unknown", "PbAc", "Li-ion", "NiCd", "NiMH"]
      (true, { target with battery_type := labels.getD (byteAt data 1) "" })
    else (false, target)
  else (false, target)

/-- case 0x07: UPS manufacture date, logged only, unimplemented. -/
def decode07 (_data : List Nat) (target : UpsMetrics) : Bool × UpsMetrics :=
  (false, target)

/-- case 0x34: input sensitivity adjustment, logged but flags an update. -/
def decode34 (data : List Nat) (target : UpsMetrics) : Bool × UpsMetrics :=
  if 2 ≤ data.length then (true, target) else (false, target)

/-- case 0x52: nominal real power. -/
def decode52 (data : List Nat) (target : UpsMetrics) : Bool × UpsMetrics :=
  if 3 ≤ data.length then
    (true, { target with nominal_power := (le16At data 1 : ℚ) })
  else (false, target)

/-- case 0x60: firmware version "%d.%d". -/
def decode60 (data : List Nat) (target : UpsMetrics) : Bool × UpsMetrics :=
  if 2 ≤ data.length then
    let version := Nat.repr (byteAt data 1) ++ "." ++ Nat.repr (byteAt data 2)
    (true, { target with firmware_version := version })
  else (false, target)

/-- The decode table: the switch cases in source order, each as a
(report id, case handler) pair.  Case ids are pairwise distinct, so
first-match dispatch is exactly the C `switch`. -/
def decodeTable : List (Nat × (List Nat → UpsMetrics → Bool × UpsMetrics)) :=
  [(0x0C, decode0C), (0x06, decode06), (0x08, decode08), (0x09, decode09),
   (0x0B, decode0B), (0x0D, decode0D), (0x0E, decode0E), (0x0F, decode0F),
   (0x10, decode10), (0x11, decode11), (0x12, decode12), (0x15, decode15),
   (0x16, decode16), (0x17, decode17), (0x18, decode18), (0x1C, decode1C),
   (0x20, decode20), (0x13, decode13), (0x14, decode14), (0x24, decode24),
   (0x21, decode21), (0x25, decode25), (0x30, decode30), (0x31, decode31),
   (0x32, decode32), (0x33, decode33), (0x50, decode50), (0x35, decode35),
   (0x36, decode36), (0x03, decode03), (0x07, decode07), (0x34, decode34),
   (0x52, decode52), (0x60, decode60)]

/-- The `switch (report_id)` body of `apc_hid_parse_report`: dispatch on the
report id; an id outside the table is the forward-compatible unknown-id
no-op of the `default:` label. -/
def parseSwitch (report_id : Nat) (data : List Nat) (target : UpsMetrics) :
    Bool × UpsMetrics :=
  match decodeTable.find? (fun e => e.1 == report_id) with
  | some e => e.2 data target
  | none => (false, target)

/-- The post-switch update block: on a successful update the timestamp and
validity flag are written and the status string is reformatted from the
(possibly just rewritten) status bit-set. -/
def updateMeta (now : Nat) (t : UpsMetrics) : UpsMetrics :=
  let t2 := { t with last_update_ms := now, valid := true }
  { t2 with status_string := apc_hid_format_status t2.status }

/-- `apc_hid_parse_report`.  A NULL `data` pointer is `none`; the payload list
carries exactly the `length` bytes the C caller passes.  `now` stands for
`xTaskGetTickCount() * portTICK_PERIOD_MS`. -/
def apc_hid_parse_report (report_id : Nat) (data : Option (List Nat)) (now : Nat)
    (target : UpsMetrics) : Bool × UpsMetrics :=
  match data with
  | none => (false, target)
  | some d =>
    if d.length = 0 then (false, target)
    else if (parseSwitch report_id d target).1 then
      (true, updateMeta now (parseSwitch report_id d target).2)
    else (false, (parseSwitch report_id d target).2)

/-- One decoder invocation: report id, payload (none for a NULL pointer), and
the tick-derived timestamp of the call. -/
structure ReportInput where
  id : Nat
  data : Option (List Nat)
  now : Nat

/-- A sequence of decoder calls applied to a snapshot, oldest first. -/
def apc_run (inputs : List ReportInput) (m : UpsMetrics) : UpsMetrics :=
  inputs.foldl (fun acc i => (apc_hid_parse_report i.id i.data i.now acc).2) m

/-- The decode table: report ids the switch handles, with the minimum payload
length each case's guard requires (none for ids that fall to the default). -/
def knownMinLen (report_id : Nat) : Option Nat :=
  if report_id = 0x0C then some 4
  else if report_id = 0x06 then some 4
  else if report_id = 0x08 then some 3
  else if report_id = 0x09 then some 3
  else if report_id = 0x0B then some 2
  else if report_id = 0x0D then some 2
  else if report_id = 0x0E then some 2
  else if report_id = 0x0F then some 2
  else if report_id = 0x10 then some 2
  else if report_id = 0x11 then some 2
  else if report_id = 0x12 then some 3
  else if report_id = 0x15 then some 3
  else if report_id = 0x16 then some 2
  else if report_id = 0x17 then some 3
  else if report_id = 0x18 then some 2
  else if report_id = 0x1C then some 4
  else if report_id = 0x20 then some 3
  else if report_id = 0x13 then some 2
  else if report_id = 0x14 then some 2
  else if report_id = 0x24 then some 3
  else if report_id = 0x21 then some 2
  else if report_id = 0x25 then some 3
  else if report_id = 0x30 then some 2
  else if report_id = 0x31 then some 3
  else if report_id = 0x32 then some 3
  else if report_id = 0x33 then some 3
  else if report_id = 0x50 then some 2
  else if report_id = 0x35 then some 2
  else if report_id = 0x36 then some 2
  else if report_id = 0x03 then some 2
  else if report_id = 0x07 then some 3
  else if report_id = 0x34 then some 2
  else if report_id = 0x52 then some 3
  else if report_id = 0x60 then some 2
  else none

/-! ## Transfer coordinator model (usb_host_manager.c)

Both `get_hid_report` and `read_hid_report` submit a transfer whose completion
is signalled by `transfer_callback` giving the `transfer_done` semaphore, then
busy-poll the two USB event channels in 10 ms steps for at most 2000 ms
(200 iterations), attempting a non-blocking semaphore take each iteration.

The environment is abstracted by `fireAt : Option Nat`: the poll iteration
from which the completion semaphore is available (`none` when the completion
callback never fires).  The model covers the behaviour after a successful
submit; the early-return paths (no device, mutex timeout, allocation or
submit failure) never reach the wait loops.
-/

/-- `usb_transfer_status_t` values the two wait tails branch on. -/
inductive UsbTransferStatus where
  | completed
  | error
  | timed_out
  | cancelled
  | stall
  | overflow
  | skipped
  | no_device
deriving DecidableEq

/-- The `esp_err_t` codes these two functions return. -/
inductive EspErr where
  | ok
  | fail
  | err_timeout
  | err_invalid_state
  | err_no_mem
  | err_invalid_size
  | err_not_supported
deriving DecidableEq

/-- Observable resource events of one coordinator call after submit. -/
inductive TransferEvent where
  | observeCompletion
  | freeTransfer
deriving DecidableEq

/-- Whether the non-blocking `xSemaphoreTake(transfer_done, 0)` succeeds at
poll iteration `i`: the callback has fired at some iteration `k ≤ i`. -/
def semAvailable (fireAt : Option Nat) (i : Nat) : Bool :=
  match fireAt with
  | some k => decide (k ≤ i)
  | none => false

/-- The bounded wait loop: starting at iteration `i` with `fuel` iterations
left (`max_wait_ms / poll_interval_ms = 200`), returns whether
`transfer_complete` became true before the loop expired. -/
def boundedPoll (fireAt : Option Nat) : Nat → Nat → Bool
  | _, 0 => false
  | i, fuel + 1 => if semAvailable fireAt i then true else boundedPoll fireAt (i + 1) fuel

/-- `max_wait_ms / poll_interval_ms`: 2000 / 10. -/
def maxPollIters : Nat := 200

/-- The status-to-error mapping of `read_hid_report` once its callback has
been observed (the COMPLETED branch also copies the data out). -/
def readStatusErr : UsbTransferStatus → EspErr
  | .completed => .ok
  | .timed_out => .err_timeout
  | .stall => .fail
  | .error => .fail
  | .no_device => .fail
  | _ => .fail

/-- The status-to-error mapping of `get_hid_report` once its callback has been
observed.  In C `*actual_length = transfer->actual_num_bytes - 8` is an
unsigned subtraction; for `actual_num_bytes < 8` both the C wrap-around value
and the Nat-truncated value fail the `0 < len ∧ len ≤ buffer_size` range
check, so the returned code agrees. -/
def getStatusErr (status : UsbTransferStatus) (actualNumBytes bufferSize : Nat) :
    EspErr :=
  match status with
  | .completed =>
    let actualLength := actualNumBytes - 8
    if 0 < actualLength ∧ actualLength ≤ bufferSize then .ok else .err_invalid_size
  | .stall => .err_not_supported
  | _ => .fail

/-- Post-submit behaviour of `get_hid_report`: if the bounded wait observes
completion, the status is decoded and the transfer freed; otherwise the
transfer is freed immediately (no further wait) and ESP_ERR_NOT_SUPPORTED is
returned.  Yields the ordered resource-event trace and the returned code. -/
def get_hid_report_run (fireAt : Option Nat) (status : UsbTransferStatus)
    (actualNumBytes bufferSize : Nat) : List TransferEvent × EspErr :=
  if boundedPoll fireAt 0 maxPollIters then
    ([TransferEvent.observeCompletion, TransferEvent.freeTransfer],
     getStatusErr status actualNumBytes bufferSize)
  else
    ([TransferEvent.freeTransfer], EspErr.err_not_supported)

/-- Post-submit behaviour of `read_hid_report`: if the bounded wait observes
completion, the status is decoded and the transfer freed; otherwise an
unbounded loop keeps polling until the callback fires, then frees the
transfer and returns ESP_ERR_TIMEOUT.  When the callback never fires
(`fireAt = none`) that loop never terminates, modelled as `none`. -/
def read_hid_report_run (fireAt : Option Nat) (status : UsbTransferStatus) :
    Option (List TransferEvent × EspErr) :=
  if boundedPoll fireAt 0 maxPollIters then
    some ([TransferEvent.observeCompletion, TransferEvent.freeTransfer],
          readStatusErr status)
  else
    match fireAt with
    | some _ =>
      some ([TransferEvent.observeCompletion, TransferEvent.freeTransfer],
            EspErr.err_timeout)
    | none => none

/-- Trace predicate: every `freeTransfer` is preceded by an
`observeCompletion` (`seen` records whether completion was already observed). -/
def freedAfterObserved (seen : Bool) : List TransferEvent → Bool
  | [] => true
  | TransferEvent.observeCompletion :: rest => freedAfterObserved true rest
  | TransferEvent.freeTransfer :: rest => seen && freedAfterObserved seen rest

/-! ## String / character-list helpers for token claims -/

/-- `pat` occurs at the head of `s`. -/
def leadsWith : List Char → List Char → Bool
  | [], _ => true
  | _ :: _, [] => false
  | p :: ps, c :: cs => (p = c) && leadsWith ps cs

/-- `pat` occurs as a contiguous segment somewhere in `s`. -/
def hasSegment (pat : List Char) : List Char → Bool
  | [] => leadsWith pat []
  | c :: cs => leadsWith pat (c :: cs) || hasSegment pat cs



/-- A post-init snapshot whose only deviation is a raised overload flag;
used to compare decodes of the same report from two prior states. -/
def metricsOverload : UpsMetrics :=
  { initMetrics with status := { initMetrics.status with overload := true } }

/-! ## Helper lemmas -/

/-- No case handler in the decode table writes the `valid` flag. -/
theorem table_valid_eq : ∀ e ∈ decodeTable, ∀ (d : List Nat) (m : UpsMetrics),
    ((e.2 d m).2).valid = m.valid := by
  intro e he
  simp only [decodeTable, List.mem_cons, List.not_mem_nil, or_false] at he
  rcases he with rfl | rfl | rfl | rfl | rfl | rfl | rfl | rfl | rfl | rfl | rfl | rfl | rfl | rfl | rfl | rfl | rfl | rfl | rfl | rfl | rfl | rfl | rfl | rfl | rfl | rfl | rfl | rfl | rfl | rfl | rfl | rfl | rfl | rfl <;>
    intro d m <;>
    simp only [decode0C, decode06, decode08, decode09, decode0B, decode0D, decode0E,
      decode0F, decode10, decode11, decode12, decode15, decode16, decode17, decode18,
      decode1C, decode20, decode13, decode14, decode24, decode21, decode25, decode30,
      decode31, decode32, decode33, decode50, decode35, decode36, decode03, decode07,
      decode34, decode52, decode60] <;>
    first | rfl | (split_ifs <;> rfl)

/-- A case handler that reports no update leaves the snapshot unchanged. -/
theorem table_not_updated : ∀ e ∈ decodeTable, ∀ (d : List Nat) (m : UpsMetrics),
    (e.2 d m).1 = false → (e.2 d m).2 = m := by
  intro e he
  simp only [decodeTable, List.mem_cons, List.not_mem_nil, or_false] at he
  rcases he with rfl | rfl | rfl | rfl | rfl | rfl | rfl | rfl | rfl | rfl | rfl | rfl | rfl | rfl | rfl | rfl | rfl | rfl | rfl | rfl | rfl | rfl | rfl | rfl | rfl | rfl | rfl | rfl | rfl | rfl | rfl | rfl | rfl | rfl <;>
    intro d m <;>
    simp only [decode0C, decode06, decode08, decode09, decode0B, decode0D, decode0E,
      decode0F, decode10, decode11, decode12, decode15, decode16, decode17, decode18,
      decode1C, decode20, decode13, decode14, decode24, decode21, decode25, decode30,
      decode31, decode32, decode33, decode50, decode35, decode36, decode03, decode07,
      decode34, decode52, decode60] <;>
    (try split_ifs) <;> intro h <;> first | rfl | trivial

/-- Only the two status-bearing handlers (0x06 and 0x16) write the bit-set. -/
theorem table_status_eq : ∀ e ∈ decodeTable, e.1 ≠ 0x06 → e.1 ≠ 0x16 →
    ∀ (d : List Nat) (m : UpsMetrics), ((e.2 d m).2).status = m.status := by
  intro e he
  simp only [decodeTable, List.mem_cons, List.not_mem_nil, or_false] at he
  rcases he with rfl | rfl | rfl | rfl | rfl | rfl | rfl | rfl | rfl | rfl | rfl | rfl | rfl | rfl | rfl | rfl | rfl | rfl | rfl | rfl | rfl | rfl | rfl | rfl | rfl | rfl | rfl | rfl | rfl | rfl | rfl | rfl | rfl | rfl <;>
    first
    | (intro h1 h2; exact absurd rfl h1)
    | (intro h1 h2; exact absurd rfl h2)
    | (intro h1 h2 d m;
       simp only [decode0C, decode06, decode08, decode09, decode0B, decode0D, decode0E,
      decode0F, decode10, decode11, decode12, decode15, decode16, decode17, decode18,
      decode1C, decode20, decode13, decode14, decode24, decode21, decode25, decode30,
      decode31, decode32, decode33, decode50, decode35, decode36, decode03, decode07,
      decode34, decode52, decode60] <;>
       first | rfl | (split_ifs <;> rfl))

/-- A payload shorter than a handler's guard length leaves the snapshot
unchanged and reports no update. -/
theorem table_short : ∀ e ∈ decodeTable, ∀ (d : List Nat) (m : UpsMetrics),
    (∀ n, knownMinLen e.1 = some n → d.length < n) → e.2 d m = (false, m) := by
  intro e he
  simp only [decodeTable, List.mem_cons, List.not_mem_nil, or_false] at he
  rcases he with rfl | rfl | rfl | rfl | rfl | rfl | rfl | rfl | rfl | rfl | rfl | rfl | rfl | rfl | rfl | rfl | rfl | rfl | rfl | rfl | rfl | rfl | rfl | rfl | rfl | rfl | rfl | rfl | rfl | rfl | rfl | rfl | rfl | rfl <;>
    intro d m h <;>
    simp [knownMinLen] at h <;>
    simp only [decode0C, decode06, decode08, decode09, decode0B, decode0D, decode0E,
      decode0F, decode10, decode11, decode12, decode15, decode16, decode17, decode18,
      decode1C, decode20, decode13, decode14, decode24, decode21, decode25, decode30,
      decode31, decode32, decode33, decode50, decode35, decode36, decode03, decode07,
      decode34, decode52, decode60] <;>
    first | rfl | (rw [if_neg (by omega)])

/-- No case of the decode switch writes the `valid` flag. -/
theorem parseSwitch_valid_eq (report_id : Nat) (d : List Nat) (m : UpsMetrics) :
    ((parseSwitch report_id d m).2).valid = m.valid := by
  unfold parseSwitch
  cases hf : decodeTable.find? (fun e => e.1 == report_id) with
  | none => rfl
  | some e => exact table_valid_eq e (List.mem_of_find?_eq_some hf) d m

/-- A switch pass that reports no update leaves the snapshot unchanged. -/
theorem parseSwitch_not_updated (report_id : Nat) (d : List Nat) (m : UpsMetrics)
    (h : (parseSwitch report_id d m).1 = false) :
    (parseSwitch report_id d m).2 = m := by
  revert h
  unfold parseSwitch
  cases hf : decodeTable.find? (fun e => e.1 == report_id) with
  | none => intro _; rfl
  | some e => exact table_not_updated e (List.mem_of_find?_eq_some hf) d m

/-- Reports other than 0x06 and 0x16 leave the status bit-set untouched. -/
theorem parseSwitch_status_eq (report_id : Nat) (d : List Nat) (m : UpsMetrics)
    (h6 : report_id ≠ 0x06) (h16 : report_id ≠ 0x16) :
    ((parseSwitch report_id d m).2).status = m.status := by
  unfold parseSwitch
  cases hf : decodeTable.find? (fun e => e.1 == report_id) with
  | none => rfl
  | some e =>
    have h1 : e.1 = report_id := by
      have hp := List.find?_some hf
      simp only [beq_iff_eq] at hp
      exact hp
    exact table_status_eq e (List.mem_of_find?_eq_some hf)
      (by rw [h1]; exact h6) (by rw [h1]; exact h16) d m

/-- A payload shorter than the id's table minimum (vacuously, any payload for
an id outside the table) makes the whole switch a no-op. -/
theorem parseSwitch_short (report_id : Nat) (d : List Nat) (m : UpsMetrics)
    (h : ∀ n, knownMinLen report_id = some n → d.length < n) :
    parseSwitch report_id d m = (false, m) := by
  unfold parseSwitch
  cases hf : decodeTable.find? (fun e => e.1 == report_id) with
  | none => rfl
  | some e =>
    have h1 : e.1 = report_id := by
      have hp := List.find?_some hf
      simp only [beq_iff_eq] at hp
      exact hp
    exact table_short e (List.mem_of_find?_eq_some hf) d m (by rw [h1]; exact h)

/-- The decoder never lowers the validity flag. -/
theorem parse_valid_mono (report_id : Nat) (data : Option (List Nat)) (now : Nat)
    (m : UpsMetrics) (h : m.valid = true) :
    ((apc_hid_parse_report report_id data now m).2).valid = true := by
  unfold apc_hid_parse_report
  match data with
  | none => exact h
  | some d =>
    dsimp only
    split_ifs with h0 h1
    · exact h
    · rfl
    · rw [parseSwitch_valid_eq]
      exact h

/-- A decode that performs an update sets the validity flag. -/
theorem parse_updated_valid (report_id : Nat) (data : Option (List Nat)) (now : Nat)
    (m : UpsMetrics) (h : (apc_hid_parse_report report_id data now m).1 = true) :
    ((apc_hid_parse_report report_id data now m).2).valid = true := by
  revert h
  unfold apc_hid_parse_report
  match data with
  | none => intro h; simp at h
  | some d =>
    dsimp only
    split_ifs with h0 h1
    · intro h; simp at h
    · intro _; rfl
    · intro h; simp at h

/-- Any run of decoder calls preserves an already-true validity flag. -/
theorem apc_run_valid (post : List ReportInput) (m : UpsMetrics)
    (h : m.valid = true) : (apc_run post m).valid = true := by
  induction post generalizing m with
  | nil => exact h
  | cons i t ih => exact ih _ (parse_valid_mono i.id i.data i.now m h)

/-! ## Claims -/

/-- C9: for every report identifier, calling the decoder with a NULL data
pointer or a zero-length payload returns false and leaves every snapshot
field, the timestamp, and the validity flag unchanged. -/
theorem c9_null_or_empty_no_update :
    ∀ (report_id : Nat) (now : Nat) (m : UpsMetrics),
      apc_hid_parse_report report_id none now m = (false, m) ∧
      apc_hid_parse_report report_id (some []) now m = (false, m) := by
  intro report_id now m
  exact ⟨rfl, rfl⟩

/-- C5: decoding the charge/runtime report 0x0C with bytes
[id, 100, 0x10, 0x0E] sets battery charge to 100 and battery runtime to
3600 = 0x0E10, the little-endian 16-bit value of payload bytes 2 and 3. -/
theorem c5_charge_runtime_decode :
    ∀ (now : Nat) (m : UpsMetrics),
      (apc_hid_parse_report 0x0C (some [0x0C, 100, 0x10, 0x0E]) now m).1 = true ∧
      ((apc_hid_parse_report 0x0C (some [0x0C, 100, 0x10, 0x0E]) now m).2).battery_charge = 100 ∧
      ((apc_hid_parse_report 0x0C (some [0x0C, 100, 0x10, 0x0E]) now m).2).battery_runtime = 3600 := by
  intro now m
  refine ⟨rfl, ?_, ?_⟩ <;> norm_num [apc_hid_parse_report, parseSwitch, decodeTable,
    decode0C, byteAt, le16At, updateMeta, show (16 ||| 14 <<< 8 : ℕ) = 3600 from by rfl]

/-- C6: decoding the detailed status report 0x16 with status byte 0b00000001
yields "OL", with 0b00000010 yields "OB", with 0b00000101 yields "OL CHRG"
in that order, and with no flag set the string is "UNKNOWN". -/
theorem c6_status_string_examples :
    ∀ (now : Nat) (m : UpsMetrics),
      ((apc_hid_parse_report 0x16 (some [0x16, 0x01]) now m).2).status_string = "OL" ∧
      ((apc_hid_parse_report 0x16 (some [0x16, 0x02]) now m).2).status_string = "OB" ∧
      ((apc_hid_parse_report 0x16 (some [0x16, 0x05]) now m).2).status_string = "OL CHRG" ∧
      ((apc_hid_parse_report 0x16 (some [0x16, 0x00]) now m).2).status_string = "UNKNOWN" := by
  intro now m
  exact ⟨rfl, rfl, rfl, rfl⟩

/-- C3: the validity flag starts false after initialization, and once any
call performs an update, every subsequent sequence of decoder calls
(timeouts, stalls, short payloads and unknown ids included, which reach the
decoder as no-ops or not at all) leaves it true. -/
theorem c3_valid_monotone :
    initMetrics.valid = false ∧
    ∀ (i : ReportInput) (m : UpsMetrics) (post : List ReportInput),
      (apc_hid_parse_report i.id i.data i.now m).1 = true →
      (apc_run post ((apc_hid_parse_report i.id i.data i.now m).2)).valid = true := by
  refine ⟨rfl, ?_⟩
  intro i m post h
  exact apc_run_valid post _ (parse_updated_valid i.id i.data i.now m h)

/-- Witness for C3 at a concrete update followed by an unknown-id call and a
short-payload call. -/
theorem c3_valid_monotone_witness :
    (apc_hid_parse_report 0x0C (some [0x0C, 100, 0x10, 0x0E]) 5 initMetrics).1 = true ∧
    (apc_run [⟨0x40, some [0x40, 1], 6⟩, ⟨0x0C, some [0x0C], 7⟩]
      ((apc_hid_parse_report 0x0C (some [0x0C, 100, 0x10, 0x0E]) 5 initMetrics).2)).valid = true :=
  ⟨by decide,
   c3_valid_monotone.2 ⟨0x0C, some [0x0C, 100, 0x10, 0x0E], 5⟩ initMetrics
     [⟨0x40, some [0x40, 1], 6⟩, ⟨0x0C, some [0x0C], 7⟩] (by decide)⟩

/-- C4: a payload shorter than its identifier's minimum required length, or
any payload for an identifier outside the decode table (where the length
hypothesis is vacuous), performs zero field updates, produces no error, and
leaves the snapshot, timestamp and validity flag exactly unchanged. -/
theorem c4_short_or_unknown_no_update :
    ∀ (report_id : Nat) (d : List Nat) (now : Nat) (m : UpsMetrics),
      (∀ n, knownMinLen report_id = some n → d.length < n) →
      apc_hid_parse_report report_id (some d) now m = (false, m) := by
  intro report_id d now m h
  unfold apc_hid_parse_report
  dsimp only
  by_cases h0 : d.length = 0
  · rw [if_pos h0]
  · rw [if_neg h0, parseSwitch_short report_id d m h]
    simp

/-- Witness for C4: an unknown identifier with a non-trivial payload, and a
known identifier (0x0C, minimum length 4) with a short payload. -/
theorem c4_short_or_unknown_no_update_witness :
    apc_hid_parse_report 0x99 (some [0x99, 1, 2, 3]) 7 initMetrics = (false, initMetrics) ∧
    apc_hid_parse_report 0x0C (some [0x0C, 100]) 7 initMetrics = (false, initMetrics) :=
  ⟨c4_short_or_unknown_no_update 0x99 [0x99, 1, 2, 3] 7 initMetrics
     (by intro n hn; simp [knownMinLen] at hn),
   c4_short_or_unknown_no_update 0x0C [0x0C, 100] 7 initMetrics
     (by intro n hn; simp [knownMinLen] at hn; show 2 < n; omega)⟩

/-- Counterexample to C2: report 0x06 decodes successfully (update reported)
from two prior snapshots that differ only in the overload flag, and the
resulting overload flags differ — so not every one of the eight status flags
is overwritten from the payload by a status-bearing report. -/
theorem c2_cex_report06_partial_overwrite :
    (apc_hid_parse_report 0x06 (some [0x06, 0, 0, 0]) 0 initMetrics).1 = true ∧
    (apc_hid_parse_report 0x06 (some [0x06, 0, 0, 0]) 0 metricsOverload).1 = true ∧
    ((apc_hid_parse_report 0x06 (some [0x06, 0, 0, 0]) 0 initMetrics).2).status.overload = false ∧
    ((apc_hid_parse_report 0x06 (some [0x06, 0, 0, 0]) 0 metricsOverload).2).status.overload = true := by
  decide

/-- C2 as amended: a 0x16 decode replaces the status bit-set as a whole
(all eight flags come from the payload byte, independent of the prior
snapshot); a 0x06 decode overwrites only online, discharging, charging and
low-battery, retaining the other four flags; reports with any other
identifier leave the bit-set untouched. -/
theorem c2_amended_status_replacement :
    ∀ (m : UpsMetrics) (d : List Nat) (now : Nat) (report_id : Nat),
      (2 ≤ d.length →
        ((apc_hid_parse_report 0x16 (some d) now m).2).status =
          { online := byteAt d 1 &&& 0x01 != 0
            discharging := byteAt d 1 &&& 0x02 != 0
            charging := byteAt d 1 &&& 0x04 != 0
            low_battery := byteAt d 1 &&& 0x08 != 0
            overload := byteAt d 1 &&& 0x10 != 0
            replace_battery := byteAt d 1 &&& 0x20 != 0
            boost := byteAt d 1 &&& 0x40 != 0
            trim := byteAt d 1 &&& 0x80 != 0 }) ∧
      (4 ≤ d.length →
        ((apc_hid_parse_report 0x06 (some d) now m).2).status =
          { m.status with
            online := byteAt d 3 &&& 0x08 != 0
            discharging := byteAt d 3 &&& 0x01 != 0
            charging := byteAt d 3 &&& 0x02 != 0
            low_battery := byteAt d 3 &&& 0x04 != 0 }) ∧
      (report_id ≠ 0x06 → report_id ≠ 0x16 →
        ∀ (dat : Option (List Nat)),
          ((apc_hid_parse_report report_id dat now m).2).status = m.status) := by
  intro m d now report_id
  refine ⟨?_, ?_, ?_⟩
  · intro h2
    have h0 : ¬ d.length = 0 := by omega
    unfold apc_hid_parse_report
    dsimp only
    rw [if_neg h0]
    have hsw : parseSwitch 0x16 d m = decode16 d m := rfl
    rw [hsw]
    unfold decode16
    rw [if_pos h2]
    rfl
  · intro h4
    have h0 : ¬ d.length = 0 := by omega
    unfold apc_hid_parse_report
    dsimp only
    rw [if_neg h0]
    have hsw : parseSwitch 0x06 d m = decode06 d m := rfl
    rw [hsw]
    unfold decode06
    rw [if_pos h4]
    rfl
  · intro h6 h16 dat
    unfold apc_hid_parse_report
    match dat with
    | none => rfl
    | some dd =>
      dsimp only
      split_ifs with h0 h1
      · rfl
      · exact parseSwitch_status_eq report_id dd m h6 h16
      · exact parseSwitch_status_eq report_id dd m h6 h16

/-- Witness for C2 as amended: a 0x16 decode from a non-trivial prior state,
a 0x06 decode retaining the overload flag, and an unrelated report (0x0C)
leaving the bit-set untouched. -/
theorem c2_amended_status_replacement_witness :
    ((apc_hid_parse_report 0x16 (some [0x16, 0x05]) 3 metricsOverload).2).status =
      { online := byteAt [0x16, 0x05] 1 &&& 0x01 != 0
        discharging := byteAt [0x16, 0x05] 1 &&& 0x02 != 0
        charging := byteAt [0x16, 0x05] 1 &&& 0x04 != 0
        low_battery := byteAt [0x16, 0x05] 1 &&& 0x08 != 0
        overload := byteAt [0x16, 0x05] 1 &&& 0x10 != 0
        replace_battery := byteAt [0x16, 0x05] 1 &&& 0x20 != 0
        boost := byteAt [0x16, 0x05] 1 &&& 0x40 != 0
        trim := byteAt [0x16, 0x05] 1 &&& 0x80 != 0 } ∧
    ((apc_hid_parse_report 0x06 (some [0x06, 0, 0, 0x0F]) 3 metricsOverload).2).status =
      { metricsOverload.status with
        online := byteAt [0x06, 0, 0, 0x0F] 3 &&& 0x08 != 0
        discharging := byteAt [0x06, 0, 0, 0x0F] 3 &&& 0x01 != 0
        charging := byteAt [0x06, 0, 0, 0x0F] 3 &&& 0x02 != 0
        low_battery := byteAt [0x06, 0, 0, 0x0F] 3 &&& 0x04 != 0 } ∧
    ((apc_hid_parse_report 0x0C (some [0x0C, 100, 0x10, 0x0E]) 3 metricsOverload).2).status =
      metricsOverload.status :=
  ⟨(c2_amended_status_replacement metricsOverload [0x16, 0x05] 3 0x0C).1 (by decide),
   (c2_amended_status_replacement metricsOverload [0x06, 0, 0, 0x0F] 3 0x0C).2.1 (by decide),
   (c2_amended_status_replacement metricsOverload [0x0C, 100, 0x10, 0x0E] 3 0x0C).2.2
     (by decide) (by decide) (some [0x0C, 100, 0x10, 0x0E])⟩

/-- Counterexample to C1: on the feature-report request path, when the
completion callback has not fired within the bounded wait (here it fires
only at iteration 250, after the 200-iteration window), the transfer is
freed without its completion ever having been observed. -/
theorem c1_cex_get_report_frees_unobserved :
    freedAfterObserved false
      (get_hid_report_run (some 250) UsbTransferStatus.timed_out 0 64).1 = false := by
  decide

/-- C1 as amended: the pushed-report read path frees the transfer only after
observing its completion callback in every terminating execution — on
app-level timeout it keeps waiting unconditionally — while the feature-report
request path guarantees this only when completion is observed within the
bounded wait; on its timeout branch it frees the transfer immediately. -/
theorem c1_amended_free_after_observe :
    ∀ (fireAt : Option Nat) (st : UsbTransferStatus) (a b : Nat)
      (r : List TransferEvent × EspErr),
      (read_hid_report_run fireAt st = some r → freedAfterObserved false r.1 = true) ∧
      (boundedPoll fireAt 0 maxPollIters = true →
        freedAfterObserved false (get_hid_report_run fireAt st a b).1 = true) := by
  intro fireAt st a b r
  constructor
  · intro h
    unfold read_hid_report_run at h
    split_ifs at h
    · injection h with h2
      subst h2
      rfl
    · match fireAt, h with
      | some k, h =>
        injection h with h2
        subst h2
        rfl
  · intro hb
    unfold get_hid_report_run
    rw [if_pos hb]
    rfl

/-- Witness for C1 as amended: the callback fires at the first poll
iteration on both paths. -/
theorem c1_amended_free_after_observe_witness :
    freedAfterObserved false
      ([TransferEvent.observeCompletion, TransferEvent.freeTransfer], EspErr.ok).1 = true ∧
    freedAfterObserved false
      (get_hid_report_run (some 0) UsbTransferStatus.completed 9 64).1 = true :=
  ⟨(c1_amended_free_after_observe (some 0) UsbTransferStatus.completed 9 64
      ([TransferEvent.observeCompletion, TransferEvent.freeTransfer], EspErr.ok)).1
      (by decide),
   (c1_amended_free_after_observe (some 0) UsbTransferStatus.completed 9 64
      ([], EspErr.ok)).2 (by decide)⟩

/-- C7: for a feature-report request whose transfer completes, an
endpoint-stall returns ESP_ERR_NOT_SUPPORTED, every other failed transfer
status returns ESP_FAIL, and the two codes are distinct. -/
theorem c7_stall_distinct_error :
    ∀ (fireAt : Option Nat) (st : UsbTransferStatus) (a b : Nat),
      boundedPoll fireAt 0 maxPollIters = true →
      st ≠ UsbTransferStatus.completed → st ≠ UsbTransferStatus.stall →
      (get_hid_report_run fireAt UsbTransferStatus.stall a b).2 = EspErr.err_not_supported ∧
      (get_hid_report_run fireAt st a b).2 = EspErr.fail ∧
      EspErr.err_not_supported ≠ EspErr.fail := by
  intro fireAt st a b hb h1 h2
  have hs : ∀ (s2 : UsbTransferStatus),
      (get_hid_report_run fireAt s2 a b).2 = getStatusErr s2 a b := by
    intro s2
    unfold get_hid_report_run
    rw [if_pos hb]
  refine ⟨?_, ?_, by decide⟩
  · rw [hs]
    rfl
  · rw [hs]
    cases st <;> first | rfl | (exact absurd rfl h1) | (exact absurd rfl h2)

/-- Witness for C7: completion at the first iteration, generic error status. -/
theorem c7_stall_distinct_error_witness :
    (get_hid_report_run (some 0) UsbTransferStatus.stall 0 64).2 = EspErr.err_not_supported ∧
    (get_hid_report_run (some 0) UsbTransferStatus.error 0 64).2 = EspErr.fail ∧
    EspErr.err_not_supported ≠ EspErr.fail :=
  c7_stall_distinct_error (some 0) UsbTransferStatus.error 0 64
    (by decide) (by decide) (by decide)

/-- C8: when the bounded wait of a feature-report request expires with no
completion observed, the call returns ESP_ERR_NOT_SUPPORTED — the same code
an endpoint-stall produces — regardless of the transfer's actual status, so
the two outcomes are indistinguishable to the caller. -/
theorem c8_timeout_equals_stall_code :
    ∀ (fireAt : Option Nat) (st : UsbTransferStatus) (a b : Nat),
      boundedPoll fireAt 0 maxPollIters = false →
      (get_hid_report_run fireAt st a b).2 = EspErr.err_not_supported ∧
      (get_hid_report_run fireAt st a b).2 =
        (get_hid_report_run (some 0) UsbTransferStatus.stall a b).2 := by
  intro fireAt st a b hb
  unfold get_hid_report_run
  rw [if_neg (by simp [hb])]
  exact ⟨rfl, rfl⟩

/-- Witness for C8: the callback never fires; status recorded as timed out. -/
theorem c8_timeout_equals_stall_code_witness :
    (get_hid_report_run none UsbTransferStatus.timed_out 0 64).2 = EspErr.err_not_supported ∧
    (get_hid_report_run none UsbTransferStatus.timed_out 0 64).2 =
      (get_hid_report_run (some 0) UsbTransferStatus.stall 0 64).2 :=
  c8_timeout_equals_stall_code none UsbTransferStatus.timed_out 0 64 (by decide)

/-- C10: for every status flag combination, the token "OB" occurs in the
formatted status string exactly when the discharging flag is set and the
online flag is clear; whenever the online flag is set, the string starts
with "OL" (online takes precedence over on-battery). -/
theorem c10_ob_only_when_on_battery :
    ∀ (o di ch lb ov rb bo tr : Bool),
      (hasSegment "OB".data
        (apc_hid_format_status ⟨o, di, ch, lb, ov, rb, bo, tr⟩).data = (di && !o)) ∧
      (o = true →
        leadsWith "OL".data
          (apc_hid_format_status ⟨o, di, ch, lb, ov, rb, bo, tr⟩).data = true) := by
  decide

/-- Witness for C10: online and discharging both set. -/
theorem c10_ob_only_when_on_battery_witness :
    leadsWith "OL".data
      (apc_hid_format_status ⟨true, true, false, false, false, false, false, false⟩).data = true :=
  (c10_ob_only_when_on_battery true true false false false false false false).2 rfl
